import Mathlib

/-!
Verification development for the sensAI basic-models core
(`basic_models/basic_models_base.py`): a shallow embedding of the data model
(`InputOutputData`, data frames), the model contract (`VectorModel`,
`VectorClassificationModel`), the chained predictor
(`ChainedVectorRegressionPredictor`), the evaluator
(`VectorModelEvaluator`) and the cross-validator
(`VectorModelCrossValidator`), together with theorems settling the spec
claims about them.
-/

namespace SensAI

/-- A pandas data frame, modelled as an ordered list of column names together
with the rows of cell values. Cells are modelled as integers; pandas row
labels (the index) are omitted, as no property below concerns them. -/
structure DataFrame where
  columns : List String
  rows : List (List Int)
deriving Repr, DecidableEq

/-- `len(df)`: the number of rows. -/
def DataFrame.length (df : DataFrame) : Nat := df.rows.length

/-- `df.shape[1]`: the number of columns. -/
def DataFrame.numCols (df : DataFrame) : Nat := df.columns.length

/-- `df.iloc[indices]` (positional row selection): pandas raises IndexError
when some position is out of range. -/
def DataFrame.iloc (df : DataFrame) (indices : List Nat) : Except String DataFrame :=
  if indices.all (fun i => i < df.rows.length) then
    .ok { columns := df.columns, rows := indices.map (fun i => df.rows.getD i []) }
  else .error "IndexError: positional indexer out of range"

/-- `df.iloc[:, 0]`: the first column as a list of cell values. -/
def DataFrame.firstColumn (df : DataFrame) : List Int :=
  df.rows.map (fun r => r.getD 0 0)

/-- The `InputOutputData` record: two aligned tables. -/
structure InputOutputData where
  inputs : DataFrame
  outputs : DataFrame
deriving Repr, DecidableEq

/-- `InputOutputData.__init__`: raises ValueError when the row counts differ. -/
def mkInputOutputData (inputs outputs : DataFrame) : Except String InputOutputData :=
  if inputs.length ≠ outputs.length then .error "Lengths do not match"
  else .ok { inputs := inputs, outputs := outputs }

/-- `InputOutputData.__len__`: the row count of `inputs`. -/
def InputOutputData.length (d : InputOutputData) : Nat := d.inputs.length

/-- `InputOutputData.inputDim`. -/
def InputOutputData.inputDim (d : InputOutputData) : Nat := d.inputs.numCols

/-- `InputOutputData.outputDim`. -/
def InputOutputData.outputDim (d : InputOutputData) : Nat := d.outputs.numCols

/-- `InputOutputData.filterIndices`: positional selection on both tables, the
result rebuilt through the validating constructor. -/
def InputOutputData.filterIndices (d : InputOutputData) (indices : List Nat) :
    Except String InputOutputData := do
  let inputs ← d.inputs.iloc indices
  let outputs ← d.outputs.iloc indices
  mkInputOutputData inputs outputs

/-- Modelled from the spec: `np.random.RandomState(seed).permutation(n)`.
numpy is external to the repository; the spec requires only a seeded,
deterministic permutation of the row indices `0 .. n-1`, which we model as a
seed-dependent rotation of `List.range n`. -/
def npPermutation (seed n : Nat) : List Nat := (List.range n).rotate seed

/-- Whether an `Except` computation succeeded. -/
def exceptIsOk : Except ε α → Bool
  | .ok _ => true
  | .error _ => false

/-- The `VectorModelEvaluator` state after construction: the `testFraction`
argument that was stored, and the training and test data sets. -/
structure VectorModelEvaluator where
  testFraction : Option ℚ
  trainingData : InputOutputData
  testData : InputOutputData
deriving DecidableEq

/-- The index split computed in the testFraction branch of
`VectorModelEvaluator.__init__`. Python's `int(numDataPoints * testFraction)`
truncates toward zero; the fraction was checked to lie in `[0, 1]` first, so
the product is nonnegative and truncation is the floor. Floats are idealised
as rationals. Returns `(trainingIndices, testIndices)`. -/
def evaluatorSplitIndices (numDataPoints : Nat) (testFraction : ℚ) (randomSeed : Nat) :
    List Nat × List Nat :=
  let permutedIndices := npPermutation randomSeed numDataPoints
  let splitIndex := (Int.floor ((numDataPoints : ℚ) * testFraction)).toNat
  (permutedIndices.drop splitIndex, permutedIndices.take splitIndex)

/-- `VectorModelEvaluator.__init__`: exactly one of testFraction and testData
must be given; a given testFraction must lie in `[0, 1]`; in the testFraction
branch the data is split along a seeded permutation of its row positions. -/
def mkVectorModelEvaluator (data : InputOutputData) (testFraction : Option ℚ)
    (testData : Option InputOutputData) (randomSeed : Nat := 42) :
    Except String VectorModelEvaluator :=
  if testFraction.isNone && testData.isNone then
    .error "Either testFraction or testData must be provided"
  else if testFraction.isSome && testData.isSome then
    .error "Cannot provide both testFraction and testData"
  else
    match testFraction, testData with
    | some f, _ =>
      if ¬ (0 ≤ f ∧ f ≤ 1) then .error "invalid testFraction"
      else do
        let split := evaluatorSplitIndices data.length f randomSeed
        let trainingData ← data.filterIndices split.1
        let testData ← data.filterIndices split.2
        .ok { testFraction := some f, trainingData := trainingData, testData := testData }
    | none, some td => .ok { testFraction := none, trainingData := data, testData := td }
    | none, none => .error "Either testFraction or testData must be provided"

/-- One iteration of the fold loop in `VectorModelCrossValidator.__init__`:
the pair `(trainIndices, testIndices)` for fold `i`. -/
def crossValidatorFold (numDataPoints folds randomSeed i : Nat) : List Nat × List Nat :=
  let permutedIndices := npPermutation randomSeed numDataPoints
  let numTestPoints := numDataPoints / folds
  let testStartIdx := i * numTestPoints
  let testEndIdx := testStartIdx + numTestPoints
  let testIndices := (permutedIndices.drop testStartIdx).take (testEndIdx - testStartIdx)
  let trainIndices := permutedIndices.take testStartIdx ++ permutedIndices.drop testEndIdx
  (trainIndices, testIndices)

/-- The per-fold `(trainIndices, testIndices)` pairs produced by the loop in
`VectorModelCrossValidator.__init__` (`for i in range(folds)`). -/
def crossValidatorFoldIndices (numDataPoints folds randomSeed : Nat) :
    List (List Nat × List Nat) :=
  (List.range folds).map (crossValidatorFold numDataPoints folds randomSeed)

/-- `VectorModelCrossValidator.__init__`: one evaluator per fold, built via
`_createModelEvaluator(data.filterIndices(trainIndices), data.filterIndices(testIndices))`,
which constructs an evaluator with explicit test data (default seed). -/
def mkVectorModelCrossValidator (data : InputOutputData) (folds : Nat)
    (randomSeed : Nat := 42) : Except String (List VectorModelEvaluator) :=
  (crossValidatorFoldIndices data.length folds randomSeed).mapM (fun fold => do
    let trainingData ← data.filterIndices fold.1
    let testData ← data.filterIndices fold.2
    mkVectorModelEvaluator trainingData none (some testData))

/-- A `DataFrameTransformer`, modelled by its post-fit `apply` function.
`fit` mutates only internal transformer state, which the properties below
never observe, so each transformer is represented directly by the mapping it
applies to a data frame after fitting. -/
abbrev Transformer := DataFrame → DataFrame

/-- `VectorModel._applyTransformers`: applies each transformer in sequence
(the `fit` calls made in fitting mode act only on transformer state). -/
def applyTransformers (df : DataFrame) (transformers : List Transformer) : DataFrame :=
  transformers.foldl (fun df t => t df) df

/-- The `VectorModel` state. The abstract `_fit`/`_predict` routines of a
concrete subclass are modelled by `fitUnderlying`, which maps the transformed
training pair to the fitted prediction function, and `underlyingPredict`, the
current prediction function (replaced when `fit` runs). -/
structure VectorModel where
  inputTransformers : List Transformer
  outputTransformers : List Transformer
  trainingOutputTransformers : List Transformer
  fitUnderlying : DataFrame → DataFrame → DataFrame → DataFrame
  underlyingPredict : DataFrame → DataFrame
  predictedVariableNames : Option (List String)
  modelInputVariableNames : Option (List String)
  modelOutputVariableNames : Option (List String)

/-- `VectorModel.__init__`: the three recorded name lists start as None. -/
def VectorModel.init (inputTransformers outputTransformers trainingOutputTransformers :
    List Transformer) (fitUnderlying : DataFrame → DataFrame → DataFrame → DataFrame) :
    VectorModel :=
  { inputTransformers := inputTransformers
    outputTransformers := outputTransformers
    trainingOutputTransformers := trainingOutputTransformers
    fitUnderlying := fitUnderlying
    underlyingPredict := id
    predictedVariableNames := none
    modelInputVariableNames := none
    modelOutputVariableNames := none }

/-- `VectorModel.getPredictedVariableNames`. -/
def VectorModel.getPredictedVariableNames (m : VectorModel) : Option (List String) :=
  m.predictedVariableNames

/-- `VectorModel.getModelOutputVariableNames`. -/
def VectorModel.getModelOutputVariableNames (m : VectorModel) : Option (List String) :=
  m.modelOutputVariableNames

/-- `VectorModel._applyInputTransformers`. -/
def VectorModel.applyInputTransformers (m : VectorModel) (X : DataFrame) : DataFrame :=
  applyTransformers X m.inputTransformers

/-- `VectorModel.fit`: records the predicted variable names (the columns of
`Y`, before any transformation), transforms inputs and training outputs,
records the post-transform column lists and delegates to the abstract fit. -/
def VectorModel.fit (m : VectorModel) (X Y : DataFrame) : VectorModel :=
  let predictedVariableNames := Y.columns
  let Xt := m.applyInputTransformers X
  let Yt := applyTransformers Y m.trainingOutputTransformers
  { m with
    predictedVariableNames := some predictedVariableNames
    modelInputVariableNames := some Xt.columns
    modelOutputVariableNames := some Yt.columns
    underlyingPredict := m.fitUnderlying Xt Yt }

/-- `VectorModel._checkAndTransformInputs`: applies the input transformers,
rejects a never-fitted model, rejects a column list differing from the
recorded one. -/
def VectorModel.checkAndTransformInputs (m : VectorModel) (x : DataFrame) :
    Except String DataFrame :=
  let xt := m.applyInputTransformers x
  if m.getPredictedVariableNames = none then
    .error "Cannot obtain predictions from non-trained model"
  else if some xt.columns ≠ m.modelInputVariableNames then
    .error "Inadmissible input data frame: columns do not match"
  else .ok xt

/-- `VectorModel.predict`: validates and transforms the input, delegates to
the abstract prediction routine, applies the output transformers. (The index
reassignment `y.index = x.index` is omitted along with row labels.) -/
def VectorModel.predict (m : VectorModel) (x : DataFrame) : Except String DataFrame := do
  let xt ← m.checkAndTransformInputs x
  let y := m.underlyingPredict xt
  .ok (applyTransformers y m.outputTransformers)

/-- `pandas.Series.unique`: the distinct values in order of first
appearance. -/
def uniqueInOrder (l : List Int) : List Int :=
  l.foldl (fun acc x => if x ∈ acc then acc else acc ++ [x]) []

/-- The `VectorClassificationModel` state, over an abstract classifier state
type `σ`. Its `__init__` takes only input transformers (output and
training-output transformer lists stay empty), so `fit` never transforms
`Y`. The abstract `_fitClassifier` is modelled by a state transition that
also receives the labels field as recorded at the time of the call. -/
structure VectorClassificationModel (σ : Type) where
  inputTransformers : List Transformer
  labels : Option (List String)
  predictedVariableNames : Option (List String)
  modelInputVariableNames : Option (List String)
  modelOutputVariableNames : Option (List String)
  clsState : σ
  fitClassifier : Option (List String) → σ → DataFrame → DataFrame → σ

/-- `VectorClassificationModel.__init__`. -/
def VectorClassificationModel.init (inputTransformers : List Transformer) (s0 : σ)
    (fitClassifier : Option (List String) → σ → DataFrame → DataFrame → σ) :
    VectorClassificationModel σ :=
  { inputTransformers := inputTransformers
    labels := none
    predictedVariableNames := none
    modelInputVariableNames := none
    modelOutputVariableNames := none
    clsState := s0
    fitClassifier := fitClassifier }

/-- `VectorModel.fit` as run on a `VectorClassificationModel`: the shared
bookkeeping (with no training-output transformers, `Y` stays untouched),
then `VectorClassificationModel._fit`, which records
`[str(label) for label in Y.iloc[:, 0].unique()]` and only afterwards calls
the classifier-specific `_fitClassifier`. -/
def VectorClassificationModel.fit (m : VectorClassificationModel σ) (X Y : DataFrame) :
    VectorClassificationModel σ :=
  let predictedVariableNames := Y.columns
  let Xt := applyTransformers X m.inputTransformers
  let labels := (uniqueInOrder Y.firstColumn).map toString
  { m with
    predictedVariableNames := some predictedVariableNames
    modelInputVariableNames := some Xt.columns
    modelOutputVariableNames := some Y.columns
    labels := some labels
    clsState := m.fitClassifier (some labels) m.clsState Xt Y }

/-- Lexicographic order on character lists by code point, as Python's
`sorted` uses on strings. -/
def charsLe : List Char → List Char → Bool
  | [], _ => true
  | _ :: _, [] => false
  | a :: as, b :: bs =>
    if a.toNat < b.toNat then true
    else if b.toNat < a.toNat then false
    else charsLe as bs

/-- Lexicographic order on strings. -/
def strLe (a b : String) : Bool := charsLe a.data b.data

/-- Insertion into a sorted list of strings. -/
def insertStr (a : String) : List String → List String
  | [] => [a]
  | b :: bs => if strLe a b then a :: b :: bs else b :: insertStr a bs

/-- Insertion sort on strings. -/
def sortStrings : List String → List String
  | [] => []
  | a :: as => insertStr a (sortStrings as)

/-- The claim-side reading of the label recording (from the spec's words, for
comparison): the SORTED list of unique stringified labels of `Y`'s first
column. -/
def specSortedLabels (Y : DataFrame) : List String :=
  sortStrings ((uniqueInOrder Y.firstColumn).map toString)

/-- A `PredictorModel` as seen by `ChainedVectorRegressionPredictor`: its
`predict` (which may fail) and its predicted variable names. -/
structure PredictorModel where
  predict : DataFrame → Except String DataFrame
  predictedVariableNames : Option (List String)

/-- The chained predictor: a wrapped predictor and a repetition count.
The constructor stores both fields and performs no validation. -/
structure ChainedVectorRegressionPredictor where
  predictor : PredictorModel
  nChainedPredictions : Nat

/-- The `while nPredictions < self.nChainedPredictions` loop of
`ChainedVectorRegressionPredictor.predict`, with `k` iterations left. -/
def chainedLoop (p : PredictorModel) : Nat → DataFrame → Except String DataFrame
  | 0, predictions => .ok predictions
  | k + 1, predictions => do chainedLoop p k (← p.predict predictions)

/-- `ChainedVectorRegressionPredictor.predict`: one wrapped prediction, the
dimensionality check (the source binds `inputDim` to the prediction's column
count and `outputDim` to the input's, and compares them), then the remaining
`nChainedPredictions - 1` chained predictions. -/
def ChainedVectorRegressionPredictor.predict (c : ChainedVectorRegressionPredictor)
    (x : DataFrame) : Except String DataFrame := do
  let predictions ← c.predictor.predict x
  let inputDim := predictions.numCols
  let outputDim := x.numCols
  if inputDim ≠ outputDim then
    .error "Model cannot be used for chained execution: inputDim does not match outputDim"
  else chainedLoop c.predictor (c.nChainedPredictions - 1) predictions

/-- `ChainedVectorRegressionPredictor.getPredictedVariableNames`. -/
def ChainedVectorRegressionPredictor.getPredictedVariableNames
    (c : ChainedVectorRegressionPredictor) : Option (List String) :=
  c.predictor.predictedVariableNames

/-! ## Helper lemmas -/

theorem npPermutation_length (seed n : Nat) : (npPermutation seed n).length = n := by
  simp [npPermutation]

theorem npPermutation_nodup (seed n : Nat) : (npPermutation seed n).Nodup := by
  unfold npPermutation
  exact List.nodup_rotate.mpr (List.nodup_range n)

theorem npPermutation_mem {seed n x : Nat} (h : x ∈ npPermutation seed n) : x < n :=
  List.mem_range.mp ((List.rotate_perm (List.range n) seed).mem_iff.mp h)

theorem mkInputOutputData_ok_inv {i o : DataFrame} {d : InputOutputData}
    (hmk : mkInputOutputData i o = .ok d) : d.inputs.length = d.outputs.length := by
  unfold mkInputOutputData at hmk
  split at hmk
  · cases hmk
  · next h =>
    cases hmk
    exact not_not.mp h

theorem iloc_ok {df : DataFrame} {indices : List Nat}
    (hvalid : ∀ i ∈ indices, i < df.rows.length) :
    df.iloc indices =
      .ok { columns := df.columns, rows := indices.map (fun i => df.rows.getD i []) } := by
  unfold DataFrame.iloc
  rw [if_pos]
  simp only [List.all_eq_true, decide_eq_true_eq]
  exact hvalid

theorem filterIndices_ok {d : InputOutputData} {indices : List Nat}
    (hinv : d.inputs.rows.length = d.outputs.rows.length)
    (hvalid : ∀ i ∈ indices, i < d.inputs.rows.length) :
    d.filterIndices indices =
      .ok { inputs := { columns := d.inputs.columns,
                        rows := indices.map (fun i => d.inputs.rows.getD i []) },
            outputs := { columns := d.outputs.columns,
                         rows := indices.map (fun i => d.outputs.rows.getD i []) } } := by
  unfold InputOutputData.filterIndices
  rw [iloc_ok hvalid, iloc_ok (fun i hi => hinv ▸ hvalid i hi)]
  show mkInputOutputData _ _ = _
  unfold mkInputOutputData
  rw [if_neg]
  simp [DataFrame.length]

theorem filterIndices_ok_inv {d : InputOutputData} {indices : List Nat} {d' : InputOutputData}
    (h : d.filterIndices indices = .ok d') : d'.inputs.length = d'.outputs.length := by
  unfold InputOutputData.filterIndices at h
  cases h1 : d.inputs.iloc indices with
  | error e => rw [h1] at h; cases h
  | ok i =>
    rw [h1] at h
    cases h2 : d.outputs.iloc indices with
    | error e => rw [h2] at h; cases h
    | ok o =>
      rw [h2] at h
      exact mkInputOutputData_ok_inv h

theorem floor_frac_le (n : Nat) (f : ℚ) (h1 : f ≤ 1) :
    (Int.floor ((n : ℚ) * f)).toNat ≤ n := by
  have hle : (n : ℚ) * f ≤ (n : ℚ) := by
    calc (n : ℚ) * f ≤ (n : ℚ) * 1 := mul_le_mul_of_nonneg_left h1 (Nat.cast_nonneg n)
    _ = (n : ℚ) := mul_one _
  have h2 := Int.floor_le_floor hle
  rw [Int.floor_natCast] at h2
  simpa using Int.toNat_le_toNat h2

theorem mkEvaluator_fraction_ok (data : InputOutputData) (f : ℚ) (seed : Nat)
    (hinv : data.inputs.rows.length = data.outputs.rows.length) (h0 : 0 ≤ f) (h1 : f ≤ 1) :
    ∃ ev, mkVectorModelEvaluator data (some f) none seed = .ok ev ∧
      ev.trainingData.length = (evaluatorSplitIndices data.length f seed).1.length ∧
      ev.testData.length = (evaluatorSplitIndices data.length f seed).2.length := by
  have hv1 : ∀ i ∈ (evaluatorSplitIndices data.length f seed).1, i < data.inputs.rows.length :=
    fun i hi => npPermutation_mem (List.mem_of_mem_drop hi)
  have hv2 : ∀ i ∈ (evaluatorSplitIndices data.length f seed).2, i < data.inputs.rows.length :=
    fun i hi => npPermutation_mem (List.mem_of_mem_take hi)
  have hmk : mkVectorModelEvaluator data (some f) none seed =
      .ok { testFraction := some f
            trainingData :=
              { inputs := { columns := data.inputs.columns
                            rows := (evaluatorSplitIndices data.length f seed).1.map
                              (fun i => data.inputs.rows.getD i []) }
                outputs := { columns := data.outputs.columns
                             rows := (evaluatorSplitIndices data.length f seed).1.map
                               (fun i => data.outputs.rows.getD i []) } }
            testData :=
              { inputs := { columns := data.inputs.columns
                            rows := (evaluatorSplitIndices data.length f seed).2.map
                              (fun i => data.inputs.rows.getD i []) }
                outputs := { columns := data.outputs.columns
                             rows := (evaluatorSplitIndices data.length f seed).2.map
                               (fun i => data.outputs.rows.getD i []) } } } := by
    unfold mkVectorModelEvaluator
    rw [if_neg (by simp), if_neg (by simp)]
    show (if ¬(0 ≤ f ∧ f ≤ 1) then _ else _) = _
    rw [if_neg (not_not.mpr ⟨h0, h1⟩)]
    show Except.bind (data.filterIndices (evaluatorSplitIndices data.length f seed).1) _ = _
    rw [filterIndices_ok hinv hv1]
    show Except.bind (data.filterIndices (evaluatorSplitIndices data.length f seed).2) _ = _
    rw [filterIndices_ok hinv hv2]
    rfl
  refine ⟨_, hmk, ?_, ?_⟩ <;>
    simp [InputOutputData.length, DataFrame.length]

theorem predict_unfitted {m : VectorModel} (x : DataFrame)
    (h : m.predictedVariableNames = none) :
    m.predict x = .error "Cannot obtain predictions from non-trained model" := by
  unfold VectorModel.predict VectorModel.checkAndTransformInputs
    VectorModel.getPredictedVariableNames
  rw [h]
  rfl

theorem predict_after_fit (m : VectorModel) (X Y x : DataFrame) :
    (m.fit X Y).predict x =
      if (applyTransformers x m.inputTransformers).columns =
          (applyTransformers X m.inputTransformers).columns then
        .ok (applyTransformers
          (m.fitUnderlying (applyTransformers X m.inputTransformers)
            (applyTransformers Y m.trainingOutputTransformers)
            (applyTransformers x m.inputTransformers)) m.outputTransformers)
      else .error "Inadmissible input data frame: columns do not match" := by
  unfold VectorModel.predict VectorModel.checkAndTransformInputs
    VectorModel.getPredictedVariableNames VectorModel.fit VectorModel.applyInputTransformers
  rw [if_neg (by simp : ¬(some Y.columns = none))]
  by_cases h : (applyTransformers x m.inputTransformers).columns =
      (applyTransformers X m.inputTransformers).columns
  · rw [if_neg (not_not.mpr (congrArg some h)), if_pos h]
    rfl
  · rw [if_pos (fun hc => h (Option.some.inj hc)), if_neg h]
    rfl

/-! ## Claims -/

/-- C10: every successfully constructed `InputOutputData` satisfies
`len(inputs) == len(outputs)`, and the invariant is preserved by
`filterIndices`, whose result is built through the validating constructor;
consequently `__len__` (defined from `inputs`) is unambiguous. -/
theorem C10_inputOutputData_invariant (i o : DataFrame) (d : InputOutputData)
    (hmk : mkInputOutputData i o = .ok d) (indices : List Nat) (d' : InputOutputData)
    (hfi : d.filterIndices indices = .ok d') :
    d.inputs.length = d.outputs.length ∧ d'.inputs.length = d'.outputs.length :=
  ⟨mkInputOutputData_ok_inv hmk, filterIndices_ok_inv hfi⟩

/-- Witness for C10 at a concrete two-row dataset filtered to its first row. -/
theorem C10_witness :
    (⟨⟨["a"], [[1], [2]]⟩, ⟨["y"], [[3], [4]]⟩⟩ : InputOutputData).inputs.length =
        (⟨⟨["a"], [[1], [2]]⟩, ⟨["y"], [[3], [4]]⟩⟩ : InputOutputData).outputs.length ∧
    (⟨⟨["a"], [[1]]⟩, ⟨["y"], [[3]]⟩⟩ : InputOutputData).inputs.length =
        (⟨⟨["a"], [[1]]⟩, ⟨["y"], [[3]]⟩⟩ : InputOutputData).outputs.length :=
  C10_inputOutputData_invariant ⟨["a"], [[1], [2]]⟩ ⟨["y"], [[3], [4]]⟩
    ⟨⟨["a"], [[1], [2]]⟩, ⟨["y"], [[3], [4]]⟩⟩ rfl [0]
    ⟨⟨["a"], [[1]]⟩, ⟨["y"], [[3]]⟩⟩ rfl

/-- C9: constructions with identical seed, identical data and identical
configuration yield identical partitions: the evaluator and the
cross-validator are pure functions of (data, fraction or fold count, seed),
the seeded permutation being deterministic. -/
theorem C9_determinism (d d' : InputOutputData) (f f' : ℚ)
    (folds folds' seed seed' : Nat) (hd : d = d') (hf : f = f')
    (hk : folds = folds') (hs : seed = seed') :
    mkVectorModelEvaluator d (some f) none seed =
      mkVectorModelEvaluator d' (some f') none seed' ∧
    mkVectorModelCrossValidator d folds seed =
      mkVectorModelCrossValidator d' folds' seed' := by
  subst hd; subst hf; subst hk; subst hs
  exact ⟨rfl, rfl⟩

/-- Witness for C9 at a concrete dataset, fraction 1/2, 2 folds, seed 42. -/
theorem C9_witness :
    mkVectorModelEvaluator ⟨⟨["a"], [[1], [2]]⟩, ⟨["y"], [[3], [4]]⟩⟩ (some (1/2)) none 42 =
      mkVectorModelEvaluator ⟨⟨["a"], [[1], [2]]⟩, ⟨["y"], [[3], [4]]⟩⟩ (some (1/2)) none 42 ∧
    mkVectorModelCrossValidator ⟨⟨["a"], [[1], [2]]⟩, ⟨["y"], [[3], [4]]⟩⟩ 2 42 =
      mkVectorModelCrossValidator ⟨⟨["a"], [[1], [2]]⟩, ⟨["y"], [[3], [4]]⟩⟩ 2 42 :=
  C9_determinism ⟨⟨["a"], [[1], [2]]⟩, ⟨["y"], [[3], [4]]⟩⟩
    ⟨⟨["a"], [[1], [2]]⟩, ⟨["y"], [[3], [4]]⟩⟩ (1/2) (1/2) 2 2 42 42 rfl rfl rfl rfl

/-- C3 (amended): on every classification fit, the recorded label list is the
stringified unique values of Y's first column IN ORDER OF FIRST APPEARANCE
(the code does not sort them), and it is recorded before the
classifier-specific fit routine runs: that routine receives exactly this
label list together with the pre-fit classifier state. -/
theorem C3_labels_recorded (σ : Type) (m : VectorClassificationModel σ) (X Y : DataFrame) :
    (m.fit X Y).labels = some ((uniqueInOrder Y.firstColumn).map toString) ∧
    (m.fit X Y).clsState =
      m.fitClassifier (some ((uniqueInOrder Y.firstColumn).map toString)) m.clsState
        (applyTransformers X m.inputTransformers) Y :=
  ⟨rfl, rfl⟩

/-- C3 counterexample: for Y whose first column is [1, 0] the recorded labels
are ["1", "0"] (first-appearance order), which differs from the sorted list
["0", "1"] that the claim requires. -/
theorem C3_counterexample :
    ((VectorClassificationModel.init (σ := Unit) [] () (fun _ s _ _ => s)).fit
        ⟨["x"], [[5], [6]]⟩ ⟨["y"], [[1], [0]]⟩).labels = some ["1", "0"] ∧
    specSortedLabels ⟨["y"], [[1], [0]]⟩ = ["0", "1"] ∧
    (["1", "0"] : List String) ≠ ["0", "1"] := by
  refine ⟨rfl, by decide, by decide⟩

/-- C4 (amended): after `fit(X, Y)` with a training-output-transformer
pipeline, `getPredictedVariableNames()` returns the ORIGINAL column names of
Y, recorded before the training-output transformation runs; the
post-transform names are recorded separately and are returned by
`getModelOutputVariableNames()`. -/
theorem C4_predicted_names_pretransform (m : VectorModel) (X Y : DataFrame) :
    (m.fit X Y).getPredictedVariableNames = some Y.columns ∧
    (m.fit X Y).getModelOutputVariableNames =
      some (applyTransformers Y m.trainingOutputTransformers).columns :=
  ⟨rfl, rfl⟩

/-- C4 counterexample: with a training-output transformer renaming column
"y" to "z", `getPredictedVariableNames()` after fitting returns ["y"] (the
original columns of Y), not the post-transform list ["z"]. -/
theorem C4_counterexample :
    ((VectorModel.init [] [] [fun df => ⟨["z"], df.rows⟩] (fun _ _ df => df)).fit
        ⟨["x"], [[1]]⟩ ⟨["y"], [[2]]⟩).getPredictedVariableNames = some ["y"] ∧
    (applyTransformers ⟨["y"], [[2]]⟩ [fun df => ⟨["z"], df.rows⟩]).columns = ["z"] ∧
    (["y"] : List String) ≠ ["z"] :=
  ⟨rfl, rfl, by decide⟩

/-- C2 (amended): the dimensionality check of the chained predictor happens
inside `predict`, not at construction (the constructor stores its arguments
and performs no validation): whenever the wrapped predictor's predict
succeeds on x with a column count that differs from x's, the chained
`predict` raises the dimensionality error — after that one wrapped call and
before any chained call, for every configured repetition count. -/
theorem C2_mismatch_fails_at_predict (p : PredictorModel) (n : Nat) (x y : DataFrame)
    (hp : p.predict x = .ok y) (hdim : y.numCols ≠ x.numCols) :
    (ChainedVectorRegressionPredictor.mk p n).predict x =
      .error "Model cannot be used for chained execution: inputDim does not match outputDim" := by
  unfold ChainedVectorRegressionPredictor.predict
  show Except.bind (p.predict x) _ = _
  rw [hp]
  show (if y.numCols ≠ x.numCols then _ else _) = _
  rw [if_pos hdim]

/-- Witness for C2 at a concrete wrapped predictor mapping a one-column frame
to a two-column frame, with two chained repetitions configured. -/
theorem C2_witness :
    (ChainedVectorRegressionPredictor.mk ⟨fun _ => .ok ⟨["a", "b"], [[0, 0]]⟩, none⟩ 2).predict
        ⟨["x"], [[1]]⟩ =
      .error "Model cannot be used for chained execution: inputDim does not match outputDim" :=
  C2_mismatch_fails_at_predict ⟨fun _ => .ok ⟨["a", "b"], [[0, 0]]⟩, none⟩ 2
    ⟨["x"], [[1]]⟩ ⟨["a", "b"], [[0, 0]]⟩ rfl (by decide)

/-- C2 counterexample: construction with a dimensionality-mismatched wrapped
predictor succeeds (the constructed object is usable and stores its
configuration), and the failure only occurs on `predict`, whose first step —
a call to the wrapped predictor's predict — does take place and succeeds. -/
theorem C2_counterexample :
    (ChainedVectorRegressionPredictor.mk
        ⟨fun _ => .ok ⟨["a", "b"], [[3, 4]]⟩, none⟩ 3).nChainedPredictions = 3 ∧
    (⟨fun _ => .ok ⟨["a", "b"], [[3, 4]]⟩, none⟩ : PredictorModel).predict ⟨["x"], [[1]]⟩ =
      .ok ⟨["a", "b"], [[3, 4]]⟩ ∧
    (ChainedVectorRegressionPredictor.mk
        ⟨fun _ => .ok ⟨["a", "b"], [[3, 4]]⟩, none⟩ 3).predict ⟨["x"], [[1]]⟩ =
      .error "Model cannot be used for chained execution: inputDim does not match outputDim" :=
  ⟨rfl, rfl, rfl⟩

/-- C8 (amended): with nChainedPredictions = 1, `predict x` equals the single
direct wrapped call whenever that call fails, or succeeds with a column count
equal to x's; a successful direct result whose column count differs from x's
is instead turned into the dimensionality error, so chained `predict`
succeeds exactly when the direct call succeeds AND the dimensionality check
passes. -/
theorem C8_single_chain_equals_direct (p : PredictorModel) (x : DataFrame) :
    (ChainedVectorRegressionPredictor.mk p 1).predict x =
      (match p.predict x with
       | .ok y =>
          if y.numCols = x.numCols then .ok y
          else .error
            "Model cannot be used for chained execution: inputDim does not match outputDim"
       | .error e => .error e) := by
  unfold ChainedVectorRegressionPredictor.predict
  cases hp : p.predict x with
  | error e => rfl
  | ok y =>
    simp only [bind, Except.bind]
    by_cases h : y.numCols = x.numCols
    · rw [if_neg (not_not.mpr h)]
      simp [h, chainedLoop]
    · rw [if_pos h]
      simp [h]

/-- C8 counterexample: a wrapped predictor whose output has two columns on a
one-column input: the direct call succeeds, yet the chained predictor with
nChainedPredictions = 1 fails, refuting "succeeds exactly when the direct
call succeeds". -/
theorem C8_counterexample :
    (⟨fun _ => .ok ⟨["a", "b"], [[7, 8]]⟩, none⟩ : PredictorModel).predict ⟨["u"], [[2]]⟩ =
      .ok ⟨["a", "b"], [[7, 8]]⟩ ∧
    (ChainedVectorRegressionPredictor.mk
        ⟨fun _ => .ok ⟨["a", "b"], [[7, 8]]⟩, none⟩ 1).predict ⟨["u"], [[2]]⟩ =
      .error "Model cannot be used for chained execution: inputDim does not match outputDim" :=
  ⟨rfl, rfl⟩

/-- C5: for an evaluator built from a dataset with a testFraction in [0, 1],
the training and test index sets are disjoint, their sizes sum to len(D), and
the test set has exactly floor(len(D) * testFraction) rows — both as index
lists and as the row counts of the constructed training/test data sets. -/
theorem C5_evaluator_split (data : InputOutputData) (f : ℚ) (seed : Nat)
    (hinv : data.inputs.rows.length = data.outputs.rows.length)
    (h0 : 0 ≤ f) (h1 : f ≤ 1) :
    List.Disjoint (evaluatorSplitIndices data.length f seed).1
      (evaluatorSplitIndices data.length f seed).2 ∧
    (evaluatorSplitIndices data.length f seed).1.length +
      (evaluatorSplitIndices data.length f seed).2.length = data.length ∧
    (evaluatorSplitIndices data.length f seed).2.length =
      (Int.floor ((data.length : ℚ) * f)).toNat ∧
    ∃ ev, mkVectorModelEvaluator data (some f) none seed = .ok ev ∧
      ev.testData.length = (Int.floor ((data.length : ℚ) * f)).toNat ∧
      ev.trainingData.length + ev.testData.length = data.length := by
  have hsn : (Int.floor ((data.length : ℚ) * f)).toNat ≤ data.length := floor_frac_le _ f h1
  have hpl : (npPermutation seed data.length).length = data.length :=
    npPermutation_length seed data.length
  have hd : (evaluatorSplitIndices data.length f seed).1 =
      (npPermutation seed data.length).drop (Int.floor ((data.length : ℚ) * f)).toNat := rfl
  have ht : (evaluatorSplitIndices data.length f seed).2 =
      (npPermutation seed data.length).take (Int.floor ((data.length : ℚ) * f)).toNat := rfl
  have hlen_take :
      ((npPermutation seed data.length).take (Int.floor ((data.length : ℚ) * f)).toNat).length =
        (Int.floor ((data.length : ℚ) * f)).toNat := by
    rw [List.length_take, hpl]
    omega
  have hlen_drop :
      ((npPermutation seed data.length).drop (Int.floor ((data.length : ℚ) * f)).toNat).length =
        data.length - (Int.floor ((data.length : ℚ) * f)).toNat := by
    rw [List.length_drop, hpl]
  refine ⟨?_, ?_, ?_, ?_⟩
  · rw [hd, ht]
    exact (List.disjoint_take_drop (npPermutation_nodup seed data.length)
      (le_refl _)).symm
  · rw [hd, ht, hlen_take, hlen_drop]
    omega
  · rw [ht, hlen_take]
  · obtain ⟨ev, hmk, htr, hte⟩ := mkEvaluator_fraction_ok data f seed hinv h0 h1
    refine ⟨ev, hmk, ?_, ?_⟩
    · rw [hte, ht, hlen_take]
    · rw [htr, hte, hd, ht, hlen_take, hlen_drop]
      omega

/-- Witness for C5 at a two-row dataset, fraction 1/2, seed 42. -/
theorem C5_witness :
    List.Disjoint
      (evaluatorSplitIndices
        (⟨⟨["a"], [[1], [2]]⟩, ⟨["y"], [[3], [4]]⟩⟩ : InputOutputData).length (1/2) 42).1
      (evaluatorSplitIndices
        (⟨⟨["a"], [[1], [2]]⟩, ⟨["y"], [[3], [4]]⟩⟩ : InputOutputData).length (1/2) 42).2 ∧
    (evaluatorSplitIndices
        (⟨⟨["a"], [[1], [2]]⟩, ⟨["y"], [[3], [4]]⟩⟩ : InputOutputData).length (1/2) 42).1.length +
      (evaluatorSplitIndices
        (⟨⟨["a"], [[1], [2]]⟩, ⟨["y"], [[3], [4]]⟩⟩ : InputOutputData).length (1/2) 42).2.length =
      (⟨⟨["a"], [[1], [2]]⟩, ⟨["y"], [[3], [4]]⟩⟩ : InputOutputData).length ∧
    (evaluatorSplitIndices
        (⟨⟨["a"], [[1], [2]]⟩, ⟨["y"], [[3], [4]]⟩⟩ : InputOutputData).length (1/2) 42).2.length =
      (Int.floor
        (((⟨⟨["a"], [[1], [2]]⟩, ⟨["y"], [[3], [4]]⟩⟩ : InputOutputData).length : ℚ) *
          (1/2))).toNat ∧
    ∃ ev, mkVectorModelEvaluator ⟨⟨["a"], [[1], [2]]⟩, ⟨["y"], [[3], [4]]⟩⟩
        (some (1/2)) none 42 = .ok ev ∧
      ev.testData.length =
        (Int.floor
          (((⟨⟨["a"], [[1], [2]]⟩, ⟨["y"], [[3], [4]]⟩⟩ : InputOutputData).length : ℚ) *
            (1/2))).toNat ∧
      ev.trainingData.length + ev.testData.length =
        (⟨⟨["a"], [[1], [2]]⟩, ⟨["y"], [[3], [4]]⟩⟩ : InputOutputData).length :=
  C5_evaluator_split ⟨⟨["a"], [[1], [2]]⟩, ⟨["y"], [[3], [4]]⟩⟩ (1/2) 42 rfl
    (by norm_num) (by norm_num)

/-- C7: evaluator construction fails exactly when both of
{testFraction, testData} are supplied, when neither is supplied, or when
testFraction lies outside [0, 1]; in every other case it succeeds. -/
theorem C7_construction_error_iff (data : InputOutputData) (testFraction : Option ℚ)
    (testData : Option InputOutputData) (seed : Nat)
    (hinv : data.inputs.rows.length = data.outputs.rows.length) :
    exceptIsOk (mkVectorModelEvaluator data testFraction testData seed) = false ↔
      (testFraction = none ∧ testData = none) ∨
      (testFraction ≠ none ∧ testData ≠ none) ∨
      (∃ g, testFraction = some g ∧ (g < 0 ∨ 1 < g)) := by
  cases testFraction with
  | none =>
    cases testData with
    | none => simp [mkVectorModelEvaluator, exceptIsOk]
    | some td => simp [mkVectorModelEvaluator, exceptIsOk]
  | some f =>
    cases testData with
    | some td => simp [mkVectorModelEvaluator, exceptIsOk]
    | none =>
      by_cases hr : 0 ≤ f ∧ f ≤ 1
      · obtain ⟨ev, hmk, -, -⟩ := mkEvaluator_fraction_ok data f seed hinv hr.1 hr.2
        rw [hmk]
        simp [exceptIsOk, not_lt.mpr hr.1, not_lt.mpr hr.2]
      · have hmk : mkVectorModelEvaluator data (some f) none seed =
            .error "invalid testFraction" := by
          unfold mkVectorModelEvaluator
          rw [if_neg (by simp), if_neg (by simp)]
          show (if ¬(0 ≤ f ∧ f ≤ 1) then _ else _) = _
          rw [if_pos hr]
        rw [hmk]
        refine iff_of_true rfl (Or.inr (Or.inr ⟨f, rfl, ?_⟩))
        rcases not_and_or.mp hr with h | h
        · exact Or.inl (not_le.mp h)
        · exact Or.inr (not_le.mp h)

/-- Witness for C7: with only a valid testFraction supplied, construction
succeeds (the error condition is equivalent to the stated disjunction, which
is false here). -/
theorem C7_witness :
    exceptIsOk (mkVectorModelEvaluator ⟨⟨["a"], [[1], [2]]⟩, ⟨["y"], [[3], [4]]⟩⟩
        (some (1/2)) none 42) = false ↔
      ((some (1/2) : Option ℚ) = none ∧ (none : Option InputOutputData) = none) ∨
      ((some (1/2) : Option ℚ) ≠ none ∧ (none : Option InputOutputData) ≠ none) ∨
      (∃ g, (some (1/2) : Option ℚ) = some g ∧ (g < 0 ∨ 1 < g)) :=
  C7_construction_error_iff ⟨⟨["a"], [[1], [2]]⟩, ⟨["y"], [[3], [4]]⟩⟩ (some (1/2)) none 42 rfl

/-- C6: `predict` before any `fit` call always raises; after `fit(X, Y)`,
`predict` succeeds on a frame whose post-input-transform column list is
identical to the one recorded at fit time (the post-transform columns of X)
and raises on any frame whose transformed column list differs. -/
theorem C6_predict_schema_check (m : VectorModel) (X Y x : DataFrame)
    (hfresh : m.predictedVariableNames = none) :
    (∃ e, m.predict x = .error e) ∧
    (exceptIsOk ((m.fit X Y).predict x) = true ↔
      (applyTransformers x m.inputTransformers).columns =
        (applyTransformers X m.inputTransformers).columns) := by
  refine ⟨⟨"Cannot obtain predictions from non-trained model", predict_unfitted x hfresh⟩, ?_⟩
  rw [predict_after_fit]
  by_cases h : (applyTransformers x m.inputTransformers).columns =
      (applyTransformers X m.inputTransformers).columns
  · simp [h, exceptIsOk]
  · simp [h, exceptIsOk]

/-- Witness for C6 at a concrete identity model fitted on one-column frames:
prediction on the training frame itself succeeds. -/
theorem C6_witness :
    (∃ e, (VectorModel.init [] [] [] (fun _ _ df => df)).predict ⟨["x"], [[1]]⟩ = .error e) ∧
    (exceptIsOk (((VectorModel.init [] [] [] (fun _ _ df => df)).fit
        ⟨["x"], [[1]]⟩ ⟨["y"], [[2]]⟩).predict ⟨["x"], [[1]]⟩) = true ↔
      (applyTransformers ⟨["x"], [[1]]⟩
          (VectorModel.init [] [] [] (fun _ _ df => df)).inputTransformers).columns =
        (applyTransformers ⟨["x"], [[1]]⟩
          (VectorModel.init [] [] [] (fun _ _ df => df)).inputTransformers).columns) :=
  C6_predict_schema_check (VectorModel.init [] [] [] (fun _ _ df => df))
    ⟨["x"], [[1]]⟩ ⟨["y"], [[2]]⟩ ⟨["x"], [[1]]⟩ rfl

/-- C1 (amended): for a cross-validator on N rows with K folds, the remainder
permuted indices (the values at positions K*floor(N/K) .. N-1 of the
permutation) belong to no fold's test set, but they DO belong to every
fold's training set (the training slice `permutedIndices[testEndIdx:]` runs
to the end of the permutation). -/
theorem C1_remainder_in_training (n k seed i p : Nat) (hi : i < k)
    (hp1 : k * (n / k) ≤ p) (hp2 : p < n) :
    (npPermutation seed n).getD p 0 ∉ (crossValidatorFold n k seed i).2 ∧
    (npPermutation seed n).getD p 0 ∈ (crossValidatorFold n k seed i).1 := by
  have hlen : (npPermutation seed n).length = n := npPermutation_length seed n
  have hnd : (npPermutation seed n).Nodup := npPermutation_nodup seed n
  have hplt : p < (npPermutation seed n).length := by rw [hlen]; exact hp2
  have hval : (npPermutation seed n).getD p 0 = (npPermutation seed n)[p] :=
    List.getD_eq_getElem _ _ hplt
  have hfold2 : (crossValidatorFold n k seed i).2 =
      ((npPermutation seed n).drop (i * (n / k))).take
        (i * (n / k) + n / k - i * (n / k)) := rfl
  have hntp : i * (n / k) + n / k - i * (n / k) = n / k :=
    Nat.add_sub_cancel_left (i * (n / k)) (n / k)
  have he_le : i * (n / k) + n / k ≤ k * (n / k) := by
    calc i * (n / k) + n / k = (i + 1) * (n / k) := (Nat.succ_mul i (n / k)).symm
    _ ≤ k * (n / k) := Nat.mul_le_mul_right (n / k) hi
  have hep : i * (n / k) + n / k ≤ p := le_trans he_le hp1
  constructor
  · rw [hval, hfold2, hntp]
    intro hmem
    obtain ⟨j, hj, heq⟩ := List.mem_iff_getElem.mp hmem
    have hj2 : j < n / k :=
      lt_of_lt_of_le hj (by rw [List.length_take]; exact min_le_left _ _)
    rw [List.getElem_take, List.getElem_drop] at heq
    have hidx := (hnd.getElem_inj_iff).mp heq
    have hlt : i * (n / k) + j < p :=
      lt_of_lt_of_le (Nat.add_lt_add_left hj2 (i * (n / k))) hep
    rw [hidx] at hlt
    exact absurd hlt (lt_irrefl p)
  · rw [hval]
    have hdl : p - (i * (n / k) + n / k) <
        ((npPermutation seed n).drop (i * (n / k) + n / k)).length := by
      rw [List.length_drop, hlen]
      exact Nat.sub_lt_sub_right hep hp2
    have hmem : ((npPermutation seed n).drop (i * (n / k) + n / k)).get
        ⟨p - (i * (n / k) + n / k), hdl⟩ ∈
        (npPermutation seed n).drop (i * (n / k) + n / k) := List.get_mem _ _ hdl
    have heq2 : ((npPermutation seed n).drop (i * (n / k) + n / k)).get
        ⟨p - (i * (n / k) + n / k), hdl⟩ = (npPermutation seed n)[p] := by
      rw [List.get_eq_getElem, List.getElem_drop]
      exact (hnd.getElem_inj_iff).mpr (Nat.add_sub_cancel' hep)
    rw [heq2] at hmem
    show _ ∈ (npPermutation seed n).take (i * (n / k)) ++
      (npPermutation seed n).drop (i * (n / k) + n / k)
    exact List.mem_append.mpr (Or.inr hmem)

/-- Witness for C1 (amended) at N = 5 rows, K = 2 folds, seed 7, fold 1,
remainder position 4. -/
theorem C1_witness :
    (npPermutation 7 5).getD 4 0 ∉ (crossValidatorFold 5 2 7 1).2 ∧
    (npPermutation 7 5).getD 4 0 ∈ (crossValidatorFold 5 2 7 1).1 :=
  C1_remainder_in_training 5 2 7 1 4 (by decide) (by decide) (by decide)

/-- C1 counterexample: at N = 5, K = 2, seed 42, the permutation is
[2, 3, 4, 0, 1]; the remainder position 4 carries the index 1, which the
claim asserts is in no fold's training set — yet fold 0's training indices
are [4, 0, 1], which contain it. -/
theorem C1_counterexample :
    npPermutation 42 5 = [2, 3, 4, 0, 1] ∧
    ((crossValidatorFoldIndices 5 2 42).getD 0 ([], [])).1 = [4, 0, 1] ∧
    (npPermutation 42 5).getD 4 0 = 1 ∧
    (1 : Nat) ∈ ((crossValidatorFoldIndices 5 2 42).getD 0 ([], [])).1 := by
  refine ⟨by decide, by decide, by decide, by decide⟩

end SensAI
